import Mathlib

/-!
Shallow embedding of the multisig account module
(x/accounts/defaults/multisig/account.go) of the repository.

State is modelled as association lists standing for the prefix-partitioned
keyed store (Members, Config, Proposals, Votes, Sequence).  Identities are
byte strings, modelled as lists of naturals.  uint64 arithmetic is Nat with
an explicit modulus 2^64 where the source overflows.  Fallible Go calls
return Option or Except; a Go runtime panic (method call on a nil
interface value) is a distinct outcome constructor.
-/

namespace Multisig

/-- Association-list lookup, standing for collections.Map.Get: the first
binding for the key, if any. -/
def mapGet {α β : Type} [DecidableEq α] : List (α × β) → α → Option β
  | [], _ => none
  | (k1, v) :: rest, k => if k1 = k then some v else mapGet rest k

/-- Association-list write, standing for collections.Map.Set: overwrite the
existing binding for the key, or append a new one. -/
def mapSet {α β : Type} [DecidableEq α] : List (α × β) → α → β → List (α × β)
  | [], k, v => [(k, v)]
  | (k1, v1) :: rest, k, v =>
    if k1 = k then (k, v) :: rest else (k1, v1) :: mapSet rest k v

/-- Configuration record (v1.Config as used by the source: Threshold,
Quorum, VotingPeriod, Algo, Revote).  Numeric fields are uint64 values,
the voting period a duration in nanoseconds. -/
structure Config where
  threshold : Nat
  quorum : Nat
  votingPeriod : Nat
  algo : String
  revote : Bool
  deriving DecidableEq, Repr

/-- Modelled from the spec: proposal status {Active, Passed, Rejected,
Expired}; the v1.Proposal message type is not among the source files,
only its use as an opaque stored value in Vote. -/
inductive ProposalStatus
  | active
  | passed
  | rejected
  | expired
  deriving DecidableEq, Repr

/-- Modelled from the spec: a proposal record carries a status; the Vote
code reads the record from the Proposal Ledger and discards it. -/
structure Proposal where
  status : ProposalStatus
  deriving DecidableEq, Repr

/-- MsgInit: parallel lists of member identities (public keys) and weights,
plus the initial configuration. -/
structure MsgInit where
  pubKeys : List (List Nat)
  weights : List Nat
  config : Config
  deriving DecidableEq, Repr

/-- MsgVote: proposal id, transaction signer string, raw signature bytes,
and the boolean vote value. -/
structure MsgVote where
  proposalId : Nat
  signer : String
  signature : List Nat
  vote : Bool
  deriving DecidableEq, Repr

/-- MsgAuthenticate: opaque authentication payload; the source never
inspects it. -/
structure MsgAuthenticate where
  payload : List Nat
  deriving DecidableEq, Repr

/-- Human name of the members map ("participants" in NewAccount). -/
def participantsName : String := "participants"

/-- Human name of the proposals map. -/
def proposalsName : String := "proposals"

/-- Human name of the config item. -/
def configName : String := "config"

/-- Error values the source returns, one constructor per distinct Go error
site (collections.ErrNotFound is wrapped with the human name of the map it
came from, so lookups in different maps yield distinguishable errors). -/
inductive Err
  | invalidInput
  | unsupportedAlgorithm (algo : String)
  | invalidConfig
  | thresholdExceedsWeight
  | quorumExceedsWeight
  | notFound (collection : String)
  | alreadyVoted
  | codec (msg : String)
  | handler (msg : String)
  deriving DecidableEq, Repr

/-- External collaborators held by the Account value: the custom signature
handler registry (name to RecoverPubKey capability) and the address codec
(StringToBytes). -/
structure AccountEnv where
  customAlgos : List (String × (List Nat → Except String (List Nat)))
  addrCodec : String → Except String (List Nat)

/-- The account's persistent state: Members, Config, Proposals, Votes and
the Sequence counter, each in its own prefix of the store. -/
structure AccountState where
  members : List (List Nat × Nat)
  config : Option Config
  proposals : List (Nat × Proposal)
  votes : List ((Nat × List Nat) × Bool)
  sequence : Nat
  deriving DecidableEq, Repr

/-- DefaultSigningAlgo constant of the source. -/
def DefaultSigningAlgo : String := "default"

/-- Total weight as Init computes it: a uint64 accumulator summed over the
weights list, wrapping modulo 2^64. -/
def sum64 (ws : List Nat) : Nat :=
  ws.foldl (fun a w => (a + w) % 2 ^ 64) 0

/-- validateConfig of the source: zero checks first, then threshold
against total weight, then quorum against total weight. -/
def validateConfig (cfg : Config) (totalWeight : Nat) : Option Err :=
  if cfg.threshold = 0 ∨ cfg.quorum = 0 ∨ cfg.votingPeriod = 0 then
    some Err.invalidConfig
  else if totalWeight < cfg.threshold then
    some Err.thresholdExceedsWeight
  else if totalWeight < cfg.quorum then
    some Err.quorumExceedsWeight
  else
    none

/-- Algorithm acceptance check of Init: the default algo, or a key of the
custom-algorithm registry. -/
def algoSupported (env : AccountEnv) (algo : String) : Bool :=
  algo = DefaultSigningAlgo ∨ (mapGet env.customAlgos algo).isSome

/-- The member-writing loop of Init: Members.Set for each (pubKey, weight)
pair in order; a later duplicate identity overwrites an earlier one. -/
def setMembers (m : List (List Nat × Nat)) (pairs : List (List Nat × Nat)) :
    List (List Nat × Nat) :=
  pairs.foldl (fun acc p => mapSet acc p.1 p.2) m

/-- Init as the source executes it, before the store's commit discipline:
the state its writes produce, and the error it returns, if any.  Members
are written before the configuration is validated; Init never writes the
configuration itself. -/
def initRaw (env : AccountEnv) (s : AccountState) (msg : MsgInit) :
    AccountState × Option Err :=
  if msg.pubKeys.length ≠ msg.weights.length then
    (s, some Err.invalidInput)
  else if ¬ algoSupported env msg.config.algo then
    (s, some (Err.unsupportedAlgorithm msg.config.algo))
  else
    let s1 := { s with members := setMembers s.members (msg.pubKeys.zip msg.weights) }
    match validateConfig msg.config (sum64 msg.weights) with
    | some e => (s1, some e)
    | none => (s1, none)

/-- Modelled from the spec: the keyed transactional store guarantees that
all writes within one external call are committed atomically or not at
all, so when Init returns an error none of its writes are observable.
Init is initRaw composed with that commit discipline. -/
def Init (env : AccountEnv) (s : AccountState) (msg : MsgInit) :
    Except Err AccountState :=
  match initRaw env s msg with
  | (_, some e) => Except.error e
  | (s1, none) => Except.ok s1

/-- The state observable after an Init call: the committed state on
success, the original state on failure. -/
def initObservable (env : AccountEnv) (s : AccountState) (msg : MsgInit) :
    AccountState :=
  match Init env s msg with
  | Except.ok s1 => s1
  | Except.error _ => s

/-- Outcome of voter-identity resolution: an identity, an error, or a Go
runtime panic. -/
inductive ResolveOutcome
  | ok (v : List Nat)
  | err (e : Err)
  | crash
  deriving DecidableEq, Repr

/-- The identity-resolution branch of Vote.  On the default algo the
address codec decodes the signer; otherwise the code indexes the
custom-algorithm map and immediately calls RecoverPubKey on the result,
so a missing key (nil interface value in Go) is a runtime panic, not an
error return. -/
def resolveVoter (env : AccountEnv) (cfg : Config) (msg : MsgVote) :
    ResolveOutcome :=
  if cfg.algo = DefaultSigningAlgo then
    match env.addrCodec msg.signer with
    | Except.ok v => ResolveOutcome.ok v
    | Except.error e => ResolveOutcome.err (Err.codec e)
  else
    match mapGet env.customAlgos cfg.algo with
    | none => ResolveOutcome.crash
    | some h =>
      match h msg.signature with
      | Except.ok v => ResolveOutcome.ok v
      | Except.error e => ResolveOutcome.err (Err.handler e)

/-- Outcome of a Vote call: the updated state, an error, or a Go runtime
panic. -/
inductive VoteOutcome
  | ok (s : AccountState)
  | err (e : Err)
  | crash
  deriving DecidableEq, Repr

/-- Vote of the source: read the config, resolve the voter, check
membership, check proposal existence, enforce the revote policy, persist
the vote.  The proposal record is read and discarded; its status is never
examined.  The only write is the final Votes.Set, executed exactly on the
success path. -/
def Vote (env : AccountEnv) (s : AccountState) (msg : MsgVote) : VoteOutcome :=
  match s.config with
  | none => VoteOutcome.err (Err.notFound configName)
  | some cfg =>
    match resolveVoter env cfg msg with
    | ResolveOutcome.crash => VoteOutcome.crash
    | ResolveOutcome.err e => VoteOutcome.err e
    | ResolveOutcome.ok voterBz =>
      match mapGet s.members voterBz with
      | none => VoteOutcome.err (Err.notFound participantsName)
      | some _ =>
        match mapGet s.proposals msg.proposalId with
        | none => VoteOutcome.err (Err.notFound proposalsName)
        | some _ =>
          match mapGet s.votes (msg.proposalId, voterBz), cfg.revote with
          | some _, false => VoteOutcome.err Err.alreadyVoted
          | _, _ =>
            VoteOutcome.ok
              { s with votes := mapSet s.votes (msg.proposalId, voterBz) msg.vote }

/-- The state observable after a Vote call: the new state on success, the
original state otherwise (the source writes nothing before its error
returns). -/
def voteObservable (env : AccountEnv) (s : AccountState) (msg : MsgVote) :
    AccountState :=
  match Vote env s msg with
  | VoteOutcome.ok s1 => s1
  | _ => s

/-- Authenticate of the source: returns an empty success response and a
nil error, reading and writing nothing. -/
def Authenticate (s : AccountState) (_msg : MsgAuthenticate) :
    AccountState × Option Err :=
  (s, none)

/-- Sum of the weights stored in the Member Registry (one entry per
identity). -/
def membersWeightSum (m : List (List Nat × Nat)) : Nat :=
  (m.map Prod.snd).sum

/-!  Concrete fixtures used by witnesses and counterexamples. -/

/-- Environment with no custom algorithms and a codec resolving every
signer string to the identity [1]. -/
def env0 : AccountEnv :=
  { customAlgos := [], addrCodec := fun _ => Except.ok [1] }

/-- A fresh, empty account state. -/
def st0 : AccountState :=
  { members := [], config := none, proposals := [], votes := [], sequence := 0 }

/-- A valid default-algo configuration with revoting disabled. -/
def cfgNoRevote : Config :=
  { threshold := 2, quorum := 2, votingPeriod := 100,
    algo := DefaultSigningAlgo, revote := false }

/-- A state holding member [1] with weight 1, the no-revote config, and a
proposal 1 already in the terminal status Passed. -/
def stTerminal : AccountState :=
  { members := [([1], 1)], config := some cfgNoRevote,
    proposals := [(1, { status := ProposalStatus.passed })],
    votes := [], sequence := 0 }

/-- A vote message for proposal 1, approve. -/
def msgVoteA : MsgVote :=
  { proposalId := 1, signer := "a", signature := [], vote := true }

/-- A vote message for the nonexistent proposal 9. -/
def msgVoteB : MsgVote :=
  { proposalId := 9, signer := "b", signature := [], vote := true }

/-- A vote message for proposal 1, reject. -/
def msgVoteReject : MsgVote :=
  { proposalId := 1, signer := "a", signature := [], vote := false }

/-- stTerminal after member [1] voted approve on proposal 1. -/
def stVoted : AccountState :=
  { stTerminal with votes := [((1, [1]), true)] }

/-- stVoted with the revote flag enabled in the configuration. -/
def stVotedR : AccountState :=
  { stVoted with config := some { cfgNoRevote with revote := true } }

/-- A state with the no-revote config and no members. -/
def stEmptyCfg : AccountState :=
  { st0 with config := some cfgNoRevote }

/-- A configuration naming an algorithm with no registered handler. -/
def cfgCustom : Config :=
  { threshold := 1, quorum := 1, votingPeriod := 1,
    algo := "bls12381", revote := false }

/-- A state storing cfgCustom and member [1]. -/
def stCustom : AccountState :=
  { members := [([1], 1)], config := some cfgCustom,
    proposals := [], votes := [], sequence := 0 }

/-- Init message whose identity and weight lists differ in length. -/
def msgLenMismatch : MsgInit :=
  { pubKeys := [[1], [2]], weights := [1], config := cfgNoRevote }

/-- Init message whose configuration fails validation: threshold 5 against
total weight 1. -/
def msgBadCfg : MsgInit :=
  { pubKeys := [[1]], weights := [1],
    config := { threshold := 5, quorum := 1, votingPeriod := 1,
                algo := DefaultSigningAlgo, revote := false } }

/-- Init message listing the same identity [1] twice, with weights 3 and
4, against threshold and quorum 7: the validation total counts both
occurrences (7), the registry keeps only the last weight (4). -/
def msgDup : MsgInit :=
  { pubKeys := [[1], [1]], weights := [3, 4],
    config := { threshold := 7, quorum := 7, votingPeriod := 1,
                algo := DefaultSigningAlgo, revote := false } }

/-- The state msgDup produces from st0. -/
def stDup : AccountState :=
  { st0 with members := [([1], 4)] }

/-- Init message whose true weight sum is 2^64 + 1, wrapping to 1 in
uint64 arithmetic, against threshold 2. -/
def msgOvf : MsgInit :=
  { pubKeys := [[1], [2]], weights := [2 ^ 64 - 1, 2],
    config := { threshold := 2, quorum := 1, votingPeriod := 1,
                algo := DefaultSigningAlgo, revote := false } }

/-- A configuration with a zero threshold. -/
def cfgZeroThreshold : Config :=
  { threshold := 0, quorum := 1, votingPeriod := 1,
    algo := DefaultSigningAlgo, revote := false }

/-!  Helper lemmas. -/

/-- Writing a key and reading it back yields the written value. -/
theorem mapGet_mapSet_self {α β : Type} [DecidableEq α]
    (m : List (α × β)) (k : α) (v : β) :
    mapGet (mapSet m k v) k = some v := by
  induction m with
  | nil => simp [mapGet, mapSet]
  | cons p t ih =>
    obtain ⟨k1, v1⟩ := p
    by_cases h : k1 = k
    · simp [mapSet, mapGet, h]
    · simp [mapSet, mapGet, h, ih]

/-- Folding uint64 addition over a list starting from a reduced
accumulator computes the modular sum. -/
theorem sum64_aux (ws : List Nat) (a : Nat) :
    ws.foldl (fun x w => (x + w) % 2 ^ 64) (a % 2 ^ 64) = (a + ws.sum) % 2 ^ 64 := by
  induction ws generalizing a with
  | nil => simp
  | cons w t ih =>
    simp only [List.foldl_cons, List.sum_cons]
    rw [Nat.mod_add_mod, ih (a + w), Nat.add_assoc]

/-- The uint64 accumulator of Init equals the list sum modulo 2^64. -/
theorem sum64_eq_sum_mod (ws : List Nat) : ws.sum % 2 ^ 64 = sum64 ws := by
  have h := sum64_aux ws 0
  simpa [sum64] using h.symm

/-!  Claim theorems. -/

/-- Claim C4: Authenticate succeeds unconditionally: for every message and
every state it returns a success (nil error) and leaves the state
unchanged, checking nothing. -/
theorem authenticate_always_succeeds (s : AccountState) (m : MsgAuthenticate) :
    Authenticate s m = (s, none) := rfl

/-- Claim C10: when the identity and weight lists differ in length, Init
fails with InvalidInput, performs no write at all, and the observable
state is the original one. -/
theorem init_length_mismatch_fails (env : AccountEnv) (s : AccountState)
    (msg : MsgInit) (h : msg.pubKeys.length ≠ msg.weights.length) :
    Init env s msg = Except.error Err.invalidInput ∧
    (initRaw env s msg).1 = s ∧
    initObservable env s msg = s := by
  refine ⟨?_, ?_, ?_⟩ <;> simp [Init, initRaw, initObservable, h]

/-- Witness for C10 at a concrete mismatched input. -/
theorem init_length_mismatch_fails_witness :
    Init env0 st0 msgLenMismatch = Except.error Err.invalidInput ∧
    (initRaw env0 st0 msgLenMismatch).1 = st0 ∧
    initObservable env0 st0 msgLenMismatch = st0 :=
  init_length_mismatch_fails env0 st0 msgLenMismatch (by decide)

/-- Claim C6: validateConfig fails with InvalidConfig when threshold,
quorum or voting period is zero; otherwise it fails with
ThresholdExceedsWeight when threshold exceeds the total weight, fails
with QuorumExceedsWeight when threshold fits but quorum exceeds the
total weight, and succeeds when both fit. -/
theorem validateConfig_characterization (cfg : Config) (w : Nat) :
    (cfg.threshold = 0 ∨ cfg.quorum = 0 ∨ cfg.votingPeriod = 0 →
      validateConfig cfg w = some Err.invalidConfig) ∧
    (cfg.threshold ≠ 0 → cfg.quorum ≠ 0 → cfg.votingPeriod ≠ 0 →
      ((w < cfg.threshold →
          validateConfig cfg w = some Err.thresholdExceedsWeight) ∧
       (cfg.threshold ≤ w → w < cfg.quorum →
          validateConfig cfg w = some Err.quorumExceedsWeight) ∧
       (cfg.threshold ≤ w → cfg.quorum ≤ w →
          validateConfig cfg w = none))) := by
  constructor
  · intro h
    simp [validateConfig, h]
  · intro h1 h2 h3
    have hz : ¬ (cfg.threshold = 0 ∨ cfg.quorum = 0 ∨ cfg.votingPeriod = 0) := by
      tauto
    refine ⟨?_, ?_, ?_⟩
    · intro hw
      rw [validateConfig, if_neg hz, if_pos hw]
    · intro ht hq
      rw [validateConfig, if_neg hz, if_neg (Nat.not_lt.mpr ht), if_pos hq]
    · intro ht hq
      rw [validateConfig, if_neg hz, if_neg (Nat.not_lt.mpr ht),
        if_neg (Nat.not_lt.mpr hq)]

/-- Witness for C6: one concrete instance per branch of the
characterization. -/
theorem validateConfig_characterization_witness :
    validateConfig cfgZeroThreshold 5 = some Err.invalidConfig ∧
    validateConfig cfgNoRevote 1 = some Err.thresholdExceedsWeight ∧
    validateConfig { cfgNoRevote with quorum := 9 } 5 = some Err.quorumExceedsWeight ∧
    validateConfig cfgNoRevote 5 = none :=
  ⟨(validateConfig_characterization cfgZeroThreshold 5).1 (Or.inl rfl),
   ((validateConfig_characterization cfgNoRevote 1).2
      (by decide) (by decide) (by decide)).1 (by decide),
   ((validateConfig_characterization { cfgNoRevote with quorum := 9 } 5).2
      (by decide) (by decide) (by decide)).2.1 (by decide) (by decide),
   ((validateConfig_characterization cfgNoRevote 5).2
      (by decide) (by decide) (by decide)).2.2 (by decide) (by decide)⟩

/-- Claim C1: whenever the configuration fails validation against the
total input weight, Init returns an error and, by the store's atomic
commit discipline, no partial state is observable: the member registry
afterwards is exactly the one before the call. -/
theorem init_validation_failure_no_partial_state (env : AccountEnv)
    (s : AccountState) (msg : MsgInit) (e : Err)
    (h : validateConfig msg.config (sum64 msg.weights) = some e) :
    (∃ e2, Init env s msg = Except.error e2) ∧
    initObservable env s msg = s ∧
    (initObservable env s msg).members = s.members := by
  have herr : ∃ e2, Init env s msg = Except.error e2 := by
    unfold Init initRaw
    by_cases h1 : msg.pubKeys.length ≠ msg.weights.length
    · simp [h1]
    · by_cases h2 : algoSupported env msg.config.algo
      · simp [h1, h2, h]
      · simp [h1, h2]
  obtain ⟨e2, he2⟩ := herr
  exact ⟨⟨e2, he2⟩, by simp [initObservable, he2], by simp [initObservable, he2]⟩

/-- Witness for C1 at an input whose threshold exceeds the total weight. -/
theorem init_validation_failure_no_partial_state_witness :
    (∃ e2, Init env0 st0 msgBadCfg = Except.error e2) ∧
    initObservable env0 st0 msgBadCfg = st0 ∧
    (initObservable env0 st0 msgBadCfg).members = st0.members :=
  init_validation_failure_no_partial_state env0 st0 msgBadCfg
    Err.thresholdExceedsWeight (by decide)

/-- Claim C8: a Vote whose resolved identity has no Member Registry entry
fails with the participants NotFound error (NotAMember), for every
proposal ledger content, and leaves the state unchanged; in particular
membership is decided before the proposal lookup. -/
theorem vote_nonmember_fails (env : AccountEnv) (s : AccountState)
    (msg : MsgVote) (cfg : Config) (v : List Nat)
    (hc : s.config = some cfg)
    (hr : resolveVoter env cfg msg = ResolveOutcome.ok v)
    (hm : mapGet s.members v = none) :
    Vote env s msg = VoteOutcome.err (Err.notFound participantsName) ∧
    voteObservable env s msg = s := by
  have hv : Vote env s msg = VoteOutcome.err (Err.notFound participantsName) := by
    simp [Vote, hc, hr, hm]
  exact ⟨hv, by simp [voteObservable, hv]⟩

/-- Witness for C8: a non-member voting in a state whose proposal ledger
is empty. -/
theorem vote_nonmember_fails_witness :
    Vote env0 stEmptyCfg msgVoteB = VoteOutcome.err (Err.notFound participantsName) ∧
    voteObservable env0 stEmptyCfg msgVoteB = stEmptyCfg :=
  vote_nonmember_fails env0 stEmptyCfg msgVoteB cfgNoRevote [1] rfl rfl rfl

/-- Claim C9: a Vote by a current member referencing a proposal id absent
from the Proposal Ledger fails with the proposals NotFound error and
records no vote. -/
theorem vote_missing_proposal_fails (env : AccountEnv) (s : AccountState)
    (msg : MsgVote) (cfg : Config) (v : List Nat) (w : Nat)
    (hc : s.config = some cfg)
    (hr : resolveVoter env cfg msg = ResolveOutcome.ok v)
    (hm : mapGet s.members v = some w)
    (hp : mapGet s.proposals msg.proposalId = none) :
    Vote env s msg = VoteOutcome.err (Err.notFound proposalsName) ∧
    voteObservable env s msg = s := by
  have hv : Vote env s msg = VoteOutcome.err (Err.notFound proposalsName) := by
    simp [Vote, hc, hr, hm, hp]
  exact ⟨hv, by simp [voteObservable, hv]⟩

/-- Witness for C9: member [1] voting on the nonexistent proposal 9. -/
theorem vote_missing_proposal_fails_witness :
    Vote env0 stTerminal msgVoteB = VoteOutcome.err (Err.notFound proposalsName) ∧
    voteObservable env0 stTerminal msgVoteB = stTerminal :=
  vote_missing_proposal_fails env0 stTerminal msgVoteB cfgNoRevote [1] 1
    rfl rfl rfl rfl

/-- Claim C5: for a member holding a stored vote on an existing proposal,
a second Vote fails with AlreadyVoted and leaves the stored vote intact
when revote is disabled, and succeeds overwriting the stored vote with
the new value when revote is enabled. -/
theorem vote_revote_policy (env : AccountEnv) (s : AccountState)
    (msg : MsgVote) (cfg : Config) (v : List Nat) (b : Bool) (w : Nat)
    (hc : s.config = some cfg)
    (hr : resolveVoter env cfg msg = ResolveOutcome.ok v)
    (hm : mapGet s.members v = some w)
    (hp : ∃ p, mapGet s.proposals msg.proposalId = some p)
    (hv : mapGet s.votes (msg.proposalId, v) = some b) :
    (cfg.revote = false →
      Vote env s msg = VoteOutcome.err Err.alreadyVoted ∧
      mapGet (voteObservable env s msg).votes (msg.proposalId, v) = some b) ∧
    (cfg.revote = true →
      Vote env s msg = VoteOutcome.ok
        { s with votes := mapSet s.votes (msg.proposalId, v) msg.vote } ∧
      mapGet (voteObservable env s msg).votes (msg.proposalId, v) = some msg.vote) := by
  obtain ⟨p, hp⟩ := hp
  constructor
  · intro hrev
    have hres : Vote env s msg = VoteOutcome.err Err.alreadyVoted := by
      simp [Vote, hc, hr, hm, hp, hv, hrev]
    exact ⟨hres, by simp [voteObservable, hres, hv]⟩
  · intro hrev
    have hres : Vote env s msg = VoteOutcome.ok
        { s with votes := mapSet s.votes (msg.proposalId, v) msg.vote } := by
      simp [Vote, hc, hr, hm, hp, hv, hrev]
    exact ⟨hres, by simp [voteObservable, hres, mapGet_mapSet_self]⟩

/-- Witness for C5: with revote disabled the reject re-vote fails and the
stored approve stands; with revote enabled it succeeds and the stored
vote becomes reject. -/
theorem vote_revote_policy_witness :
    (Vote env0 stVoted msgVoteReject = VoteOutcome.err Err.alreadyVoted ∧
     mapGet (voteObservable env0 stVoted msgVoteReject).votes (1, [1]) = some true) ∧
    (Vote env0 stVotedR msgVoteReject = VoteOutcome.ok
        { stVotedR with votes := mapSet stVotedR.votes (1, [1]) false } ∧
     mapGet (voteObservable env0 stVotedR msgVoteReject).votes (1, [1]) = some false) :=
  ⟨(vote_revote_policy env0 stVoted msgVoteReject cfgNoRevote [1] true 1
      rfl rfl rfl ⟨_, rfl⟩ rfl).1 rfl,
   (vote_revote_policy env0 stVotedR msgVoteReject
      { cfgNoRevote with revote := true } [1] true 1
      rfl rfl rfl ⟨_, rfl⟩ rfl).2 rfl⟩

/-- Claim C2, as the code behaves: with a stored non-default algorithm
that has no registered handler, Vote indexes the handler map and calls
RecoverPubKey on the missing entry (a nil interface value in Go), which
is a runtime panic, not the typed UnknownAlgorithmHandler error the
claim requires. -/
theorem vote_missing_handler_crashes :
    cfgCustom.algo ≠ DefaultSigningAlgo ∧
    mapGet env0.customAlgos cfgCustom.algo = none ∧
    stCustom.config = some cfgCustom ∧
    Vote env0 stCustom msgVoteA = VoteOutcome.crash :=
  ⟨by decide, rfl, rfl, rfl⟩

/-- Counterexample to claim C3: member [1] votes on proposal 1 whose
status is the terminal Passed; Vote succeeds and records the vote instead
of failing with ProposalClosed. -/
theorem vote_terminal_status_counterexample :
    mapGet stTerminal.proposals 1 = some { status := ProposalStatus.passed } ∧
    mapGet stTerminal.members [1] = some 1 ∧
    Vote env0 stTerminal msgVoteA =
      VoteOutcome.ok { stTerminal with votes := [((1, [1]), true)] } ∧
    mapGet (voteObservable env0 stTerminal msgVoteA).votes (1, [1]) = some true :=
  ⟨rfl, rfl, rfl, rfl⟩

/-- Claim C3 as amended: Vote never examines the proposal's status; a
current member voting on an existing proposal in a terminal state
(Passed, Rejected or Expired) with no prior stored vote is not rejected
with ProposalClosed — the vote is accepted and recorded exactly as for an
active proposal. -/
theorem vote_ignores_terminal_status (env : AccountEnv) (s : AccountState)
    (msg : MsgVote) (cfg : Config) (v : List Nat) (w : Nat) (p : Proposal)
    (hc : s.config = some cfg)
    (hr : resolveVoter env cfg msg = ResolveOutcome.ok v)
    (hm : mapGet s.members v = some w)
    (hp : mapGet s.proposals msg.proposalId = some p)
    (_hterm : p.status = ProposalStatus.passed ∨
      p.status = ProposalStatus.rejected ∨ p.status = ProposalStatus.expired)
    (hnew : mapGet s.votes (msg.proposalId, v) = none) :
    Vote env s msg = VoteOutcome.ok
      { s with votes := mapSet s.votes (msg.proposalId, v) msg.vote } ∧
    mapGet (voteObservable env s msg).votes (msg.proposalId, v) = some msg.vote := by
  have hres : Vote env s msg = VoteOutcome.ok
      { s with votes := mapSet s.votes (msg.proposalId, v) msg.vote } := by
    simp [Vote, hc, hr, hm, hp, hnew]
  exact ⟨hres, by simp [voteObservable, hres, mapGet_mapSet_self]⟩

/-- Witness for the amended C3 at the terminal-status fixture. -/
theorem vote_ignores_terminal_status_witness :
    Vote env0 stTerminal msgVoteA = VoteOutcome.ok
      { stTerminal with votes := mapSet stTerminal.votes (1, [1]) true } ∧
    mapGet (voteObservable env0 stTerminal msgVoteA).votes (1, [1]) = some true :=
  vote_ignores_terminal_status env0 stTerminal msgVoteA cfgNoRevote [1] 1
    { status := ProposalStatus.passed } rfl rfl rfl rfl (Or.inl rfl) rfl

/-- Claim C7: the total weight Init validates against is the uint64
(modulo 2^64) sum of the input weights list, occurrences of duplicate
identities included, not the sum stored in the Member Registry.  The
conjuncts: the accumulator computes the list sum mod 2^64; under equal
lengths and a supported algorithm Init succeeds exactly when validation
of that wrapped list sum passes; the duplicate-identity instance stores
only the last weight (registry sum 4) yet validates the full list sum 7
against threshold 7 and succeeds; the overflowing instance whose true
sum is 2^64 + 1 is validated against the wrapped sum 1 and fails
ThresholdExceedsWeight although the true sum exceeds the threshold. -/
theorem init_total_weight_semantics :
    (∀ ws : List Nat, sum64 ws = ws.sum % 2 ^ 64) ∧
    (∀ (env : AccountEnv) (s : AccountState) (msg : MsgInit),
      msg.pubKeys.length = msg.weights.length →
      algoSupported env msg.config.algo = true →
      ((∃ s1, Init env s msg = Except.ok s1) ↔
        validateConfig msg.config (sum64 msg.weights) = none)) ∧
    (Init env0 st0 msgDup = Except.ok stDup ∧
      mapGet stDup.members [1] = some 4 ∧
      membersWeightSum stDup.members = 4 ∧
      sum64 msgDup.weights = 7 ∧
      msgDup.config.threshold = 7) ∧
    (Init env0 st0 msgOvf = Except.error Err.thresholdExceedsWeight ∧
      sum64 msgOvf.weights = 1 ∧
      msgOvf.config.threshold ≤ msgOvf.weights.sum) := by
  refine ⟨fun ws => (sum64_eq_sum_mod ws).symm, ?_, ?_, ?_⟩
  · intro env s msg h1 h2
    unfold Init initRaw
    have h1n : ¬ msg.pubKeys.length ≠ msg.weights.length := by simp [h1]
    cases hv : validateConfig msg.config (sum64 msg.weights) <;>
      simp [h1n, h2, hv]
  · refine ⟨rfl, rfl, rfl, rfl, rfl⟩
  · refine ⟨rfl, by decide, by decide⟩

/-- Witness for C7, applying its universally quantified conjunct at the
duplicate-identity instance. -/
theorem init_total_weight_semantics_witness :
    (∃ s1, Init env0 st0 msgDup = Except.ok s1) ↔
      validateConfig msgDup.config (sum64 msgDup.weights) = none :=
  init_total_weight_semantics.2.1 env0 st0 msgDup (by decide) (by decide)

end Multisig
